import Mathlib

/-!
Verification of the elite-video-pipeline v3.0 job-orchestration core.

This file gives a shallow embedding of the Python sources
`src/emotional_index_v3.py`, `src/redis_orchestrator.py`,
`src/cinematography_engine.py` (the parts the orchestrator calls) and
`src/pipeline_orchestrator.py`, and proves properties of the embedded
operations.

Modelling conventions:
- Redis hashes are modelled as records with one `Option` field per hash
  field; an absent field is `none`.
- Redis string-keyed collections are modelled as association lists
  (`List (String × _)`) with first-match lookup and in-place replacement
  on overwrite, matching the keyed hash-map primitive.
- `time.time()` is modelled by a natural-number wall clock stored in the
  Redis state; each call to the clock (`tick`) returns the current value
  and advances it, so distinct calls give nondecreasing timestamps.
- Exceptions raised by a stage's delegated external work inside
  `process_job` are modelled by an explicit per-stage outcome function
  `stage_raises : Nat → Option String` (`some msg` means the work of that
  stage raises with message `msg`); this is the only exception source the
  Python `try` block can see from the delegated work.
- Python float literals in the static catalog are exact multiples of 1/100
  and are stored as integer numbers of hundredths (`PVal.f`).
-/

set_option autoImplicit false

namespace EVP

/-- First-match lookup in a string-keyed association list, modelling a read
from the keyed map primitive. -/
def lookupAssoc {α : Type} : List (String × α) → String → Option α
  | [], _ => none
  | (k', v) :: rest, k => if k' = k then some v else lookupAssoc rest k

/-- Write (replace-or-append) in a string-keyed association list, modelling
a keyed write into the map primitive. -/
def setAssoc {α : Type} : List (String × α) → String → α → List (String × α)
  | [], k, v => [(k, v)]
  | (k', v') :: rest, k, v =>
      if k' = k then (k, v) :: rest else (k', v') :: setAssoc rest k v

@[simp]
theorem lookupAssoc_setAssoc_self {α : Type} (m : List (String × α)) (k : String) (v : α) :
    lookupAssoc (setAssoc m k v) k = some v := by
  induction m with
  | nil => simp [setAssoc, lookupAssoc]
  | cons hd tl ih =>
      by_cases h : hd.1 = k
      · simp [setAssoc, h, lookupAssoc]
      · simp [setAssoc, h, lookupAssoc, ih]

@[simp]
theorem setAssoc_setAssoc_self {α : Type} (m : List (String × α)) (k : String) (v w : α) :
    setAssoc (setAssoc m k v) k w = setAssoc m k w := by
  induction m with
  | nil => simp [setAssoc]
  | cons hd tl ih =>
      by_cases h : hd.1 = k
      · simp [setAssoc, h]
      · simp [setAssoc, h, ih]

/-- Values occurring in the static emotional-index catalog: strings,
integers, decimals (stored as hundredths, `f n` denotes `n / 100`) and
booleans. -/
inductive PVal where
  | s (v : String)
  | i (v : Int)
  | f (centi : Int)
  | b (v : Bool)
deriving Repr, DecidableEq

/-- One archetype entry of `EMOTIONAL_INDEX` in `src/emotional_index_v3.py`:
a description, per-intensity camera and color parameter maps, per-intensity
vfx lists, and an ffmpeg filter string. -/
structure ArchetypeEntry where
  description : String
  camera : List (String × List (String × PVal))
  color : List (String × List (String × PVal))
  vfx : List (String × List String)
  ffmpeg : String
deriving Repr, DecidableEq

def curiosityEntry : ArchetypeEntry :=
  { description := "Viewer investigating unknown"
    camera :=
      [ ("light", [("movement", .s "slow_zoom_in"), ("angle", .s "eye_level"),
          ("speed", .f 30), ("focal_length", .i 35)])
      , ("medium", [("movement", .s "dolly_forward"), ("angle", .s "slightly_low"),
          ("speed", .f 50), ("focal_length", .i 50)])
      , ("heavy", [("movement", .s "push_in_dramatic"), ("angle", .s "dutch_tilt_15deg"),
          ("speed", .f 80), ("focal_length", .i 85)]) ]
    color :=
      [ ("light", [("grade", .s "neutral_cool"), ("saturation", .i (-5)),
          ("contrast", .f 105), ("vignette", .f 10)])
      , ("medium", [("grade", .s "mystery_teal"), ("saturation", .i (-10)),
          ("contrast", .f 115), ("vignette", .f 30)])
      , ("heavy", [("grade", .s "noir_blue"), ("saturation", .i (-20)),
          ("contrast", .f 135), ("vignette", .f 50)]) ]
    vfx :=
      [ ("light", ["subtle_glow_edges"])
      , ("medium", ["light_rays", "dust_particles"])
      , ("heavy", ["lens_flare_mystery", "depth_fog", "chromatic_aberration"]) ]
    ffmpeg := "zoompan=z=\x27min(zoom+0.0015,1.5)\x27:d=900,eq=saturation=0.9:contrast=1.15" }

def fearEntry : ArchetypeEntry :=
  { description := "Viewer anticipating threat"
    camera :=
      [ ("light", [("movement", .s "handheld_slight_shake"), ("angle", .s "slightly_low"),
          ("speed", .f 60), ("focal_length", .i 24)])
      , ("medium", [("movement", .s "dutch_angle_creep"), ("angle", .s "tilted_20deg"),
          ("speed", .f 40), ("focal_length", .i 35)])
      , ("heavy", [("movement", .s "erratic_handheld"), ("angle", .s "extreme_dutch_45deg"),
          ("speed", .f 100), ("focal_length", .i 18)]) ]
    color :=
      [ ("light", [("grade", .s "slightly_desaturated"), ("saturation", .i (-10)),
          ("contrast", .f 110)])
      , ("medium", [("grade", .s "cold_blue_shadows"), ("saturation", .i (-20)),
          ("contrast", .f 125), ("vignette", .f 40)])
      , ("heavy", [("grade", .s "horror_green_tint"), ("saturation", .i (-30)),
          ("contrast", .f 150), ("vignette", .f 70)]) ]
    vfx :=
      [ ("light", ["vignette_crawl"])
      , ("medium", ["shadow_flicker", "screen_glitch"])
      , ("heavy", ["chromatic_shift", "distortion_waves", "static_burst"]) ]
    ffmpeg := "transform=\x27sin(2*PI*t*1.5)*5\x27,eq=saturation=0.7:contrast=1.5,noise=alls=20:allf=t" }

def triumphEntry : ArchetypeEntry :=
  { description := "Viewer experiencing victory"
    camera :=
      [ ("light", [("movement", .s "slow_rise"), ("angle", .s "slightly_low"),
          ("speed", .f 50), ("focal_length", .i 50)])
      , ("medium", [("movement", .s "crane_up_hero"), ("angle", .s "low_angle_power"),
          ("speed", .f 70), ("focal_length", .i 35)])
      , ("heavy", [("movement", .s "drone_orbit_ascend"), ("angle", .s "low_heroic"),
          ("speed", .f 100), ("focal_length", .i 24)]) ]
    color :=
      [ ("light", [("grade", .s "warm_lift"), ("saturation", .i 10),
          ("contrast", .f 105)])
      , ("medium", [("grade", .s "golden_hour"), ("saturation", .i 20),
          ("contrast", .f 115), ("bloom", .f 20)])
      , ("heavy", [("grade", .s "epic_teal_orange"), ("saturation", .i 35),
          ("contrast", .f 130), ("bloom", .f 40)]) ]
    vfx :=
      [ ("light", ["soft_glow"])
      , ("medium", ["light_rays_strong", "particle_sparkle"])
      , ("heavy", ["epic_lens_flare", "light_streak", "particle_explosion"]) ]
    ffmpeg := "zoompan=z=\x271\x27:y=\x27max(ih-ih/zoom,0-t*40)\x27:d=900,eq=saturation=1.35:contrast=1.3,flare=0.5:0.5:2.0" }

def tensionEntry : ArchetypeEntry :=
  { description := "Viewer on edge, awaiting resolution"
    camera :=
      [ ("light", [("movement", .s "static_locked"), ("angle", .s "eye_level_tight"),
          ("speed", .f 0), ("focal_length", .i 85)])
      , ("medium", [("movement", .s "micro_shake_anticipation"), ("angle", .s "close_up"),
          ("speed", .f 20), ("focal_length", .i 100)])
      , ("heavy", [("movement", .s "zoom_in_aggressive"), ("angle", .s "extreme_close_up"),
          ("speed", .f 150), ("focal_length", .i 135)]) ]
    color :=
      [ ("light", [("grade", .s "neutral_sharp"), ("saturation", .i 0),
          ("contrast", .f 115)])
      , ("medium", [("grade", .s "high_contrast_cold"), ("saturation", .i (-15)),
          ("contrast", .f 135)])
      , ("heavy", [("grade", .s "stark_black_white"), ("saturation", .i (-50)),
          ("contrast", .f 160), ("vignette", .f 60)]) ]
    vfx :=
      [ ("light", ["frame_jitter"])
      , ("medium", ["time_remap_subtle", "sound_visualizer"])
      , ("heavy", ["strobe_flash", "frame_skip", "reverse_time_glitch"]) ]
    ffmpeg := "zoompan=z=\x27min(zoom+0.003,2.0)\x27:d=900,eq=saturation=0.5:contrast=1.6,vignette=\x27PI/4*0.6\x27" }

def wonderEntry : ArchetypeEntry :=
  { description := "Viewer experiencing awe"
    camera :=
      [ ("light", [("movement", .s "slow_pan_reveal"), ("angle", .s "eye_level_wide"),
          ("speed", .f 30), ("focal_length", .i 24)])
      , ("medium", [("movement", .s "crane_rise_majestic"), ("angle", .s "ascending"),
          ("speed", .f 50), ("focal_length", .i 35)])
      , ("heavy", [("movement", .s "orbital_360_slow"), ("angle", .s "god_view_high"),
          ("speed", .f 70), ("focal_length", .i 16)]) ]
    color :=
      [ ("light", [("grade", .s "pastel_dream"), ("saturation", .i 15),
          ("contrast", .f 95)])
      , ("medium", [("grade", .s "ethereal_glow"), ("saturation", .i 25),
          ("contrast", .f 90), ("bloom", .f 30)])
      , ("heavy", [("grade", .s "magic_hour_amplified"), ("saturation", .i 40),
          ("contrast", .f 85), ("bloom", .f 60)]) ]
    vfx :=
      [ ("light", ["soft_bokeh"])
      , ("medium", ["particle_float", "light_beams_soft"])
      , ("heavy", ["god_rays_volumetric", "particle_galaxy", "lens_orbs"]) ]
    ffmpeg := "eq=saturation=1.4:contrast=0.85:brightness=0.08,gblur=sigma=7:steps=4,flare=0.4:0.4:1.8" }

def urgencyEntry : ArchetypeEntry :=
  { description := "Viewer feeling time pressure"
    camera :=
      [ ("light", [("movement", .s "quick_cuts_static"), ("angle", .s "varying_rapid"),
          ("speed", .f 200), ("focal_length", .i 50)])
      , ("medium", [("movement", .s "chase_cam_forward"), ("angle", .s "pov_handheld"),
          ("speed", .f 300), ("focal_length", .i 28)])
      , ("heavy", [("movement", .s "frenetic_multi_angle"), ("angle", .s "extreme_pov"),
          ("speed", .f 500), ("focal_length", .s "variable")]) ]
    color :=
      [ ("light", [("grade", .s "high_contrast_warm"), ("saturation", .i 5),
          ("contrast", .f 120)])
      , ("medium", [("grade", .s "action_orange_crush"), ("saturation", .i 15),
          ("contrast", .f 140)])
      , ("heavy", [("grade", .s "explosive_color_pop"), ("saturation", .i 30),
          ("contrast", .f 160)]) ]
    vfx :=
      [ ("light", ["speed_lines"])
      , ("medium", ["motion_trails", "frame_blending"])
      , ("heavy", ["strobe_cuts", "whip_transitions", "zoom_blur"]) ]
    ffmpeg := "eq=saturation=1.3:contrast=1.6,minterpolate=\x27fps=120:mi_mode=mci\x27,zoompan=z=\x27if(eq(on,1),1.5,zoom-0.01)\x27:d=1" }

def melancholyEntry : ArchetypeEntry :=
  { description := "Viewer experiencing sadness/loss"
    camera :=
      [ ("light", [("movement", .s "slow_dolly_back"), ("angle", .s "eye_level_distant"),
          ("speed", .f 20), ("focal_length", .i 50)])
      , ("medium", [("movement", .s "crane_descend_slow"), ("angle", .s "high_looking_down"),
          ("speed", .f 30), ("focal_length", .i 85)])
      , ("heavy", [("movement", .s "static_hold_long"), ("angle", .s "isolated_wide"),
          ("speed", .f 0), ("focal_length", .i 24)]) ]
    color :=
      [ ("light", [("grade", .s "muted_cool"), ("saturation", .i (-10)),
          ("contrast", .f 95)])
      , ("medium", [("grade", .s "desaturated_blue"), ("saturation", .i (-25)),
          ("contrast", .f 85), ("vignette", .f 30)])
      , ("heavy", [("grade", .s "monochrome_blue_tint"), ("saturation", .i (-40)),
          ("contrast", .f 75), ("vignette", .f 60)]) ]
    vfx :=
      [ ("light", ["rain_overlay_light"])
      , ("medium", ["rain_medium", "window_droplets"])
      , ("heavy", ["heavy_rain", "fog_dense", "chromatic_aberration_subtle"]) ]
    ffmpeg := "eq=saturation=0.6:contrast=0.75,colorchannelmixer=rr=0.3:rg=0.3:rb=0.4:gr=0.3:gg=0.3:gb=0.4:br=0.3:bg=0.3:bb=0.4,vignette=\x27PI/4*0.6\x27" }

def romanceEntry : ArchetypeEntry :=
  { description := "Intimacy and affection (Tame/Hollywood Safe)"
    camera :=
      [ ("light", [("movement", .s "static_two_shot"), ("angle", .s "eye_level"),
          ("speed", .f 0), ("focal_length", .i 50)])
      , ("medium", [("movement", .s "slow_dolly_in"), ("angle", .s "shoulder_level"),
          ("speed", .f 20), ("focal_length", .i 85)])
      , ("heavy", [("movement", .s "orbit_slow_close"), ("angle", .s "eye_level_tight"),
          ("speed", .f 30), ("focal_length", .i 100)]) ]
    color :=
      [ ("light", [("grade", .s "warm_soft"), ("saturation", .i 10),
          ("contrast", .f 100), ("bloom", .f 10)])
      , ("medium", [("grade", .s "golden_glow"), ("saturation", .i 15),
          ("contrast", .f 110), ("vignette", .f 20)])
      , ("heavy", [("grade", .s "deep_passion"), ("saturation", .i 20),
          ("contrast", .f 120), ("blur_edges", .b true)]) ]
    vfx :=
      [ ("light", ["soft_glow_subtle"])
      , ("medium", ["bokeh_particles", "light_leak_warm"])
      , ("heavy", ["dreamy_haze", "heartbeat_vignette"]) ]
    ffmpeg := "eq=saturation=1.2:contrast=1.1,gblur=sigma=2:steps=1,vignette=\x27PI/4*0.2\x27" }

def joyEntry : ArchetypeEntry :=
  { description := "Happiness, humor, and comedy"
    camera :=
      [ ("light", [("movement", .s "static_wide"), ("angle", .s "eye_level"),
          ("speed", .f 0), ("focal_length", .i 35)])
      , ("medium", [("movement", .s "whip_pan_reveal"), ("angle", .s "slightly_low"),
          ("speed", .f 150), ("focal_length", .i 24)])
      , ("heavy", [("movement", .s "snap_zoom_funny"), ("angle", .s "high_angle_exaggerated"),
          ("speed", .f 300), ("focal_length", .i 18)]) ]
    color :=
      [ ("light", [("grade", .s "bright_natural"), ("saturation", .i 5),
          ("contrast", .f 100), ("brightness", .f 5)])
      , ("medium", [("grade", .s "vibrant_pop"), ("saturation", .i 20),
          ("contrast", .f 110), ("brightness", .f 10)])
      , ("heavy", [("grade", .s "candy_crush"), ("saturation", .i 35),
          ("contrast", .f 120), ("gamma", .f 110)]) ]
    vfx :=
      [ ("light", ["clean_sharp"])
      , ("medium", ["confetti_subtle", "lens_flare_bright"])
      , ("heavy", ["speed_lines_comic", "star_burst"]) ]
    ffmpeg := "eq=brightness=0.1:saturation=1.3:contrast=1.1" }

def nostalgiaEntry : ArchetypeEntry :=
  { description := "Sentimental memories and flashbacks"
    camera :=
      [ ("light", [("movement", .s "handheld_gentle"), ("angle", .s "eye_level"),
          ("speed", .f 40), ("focal_length", .i 50)])
      , ("medium", [("movement", .s "slow_pan_drift"), ("angle", .s "varying"),
          ("speed", .f 30), ("focal_length", .i 35)])
      , ("heavy", [("movement", .s "floating_cam"), ("angle", .s "subjective_pov"),
          ("speed", .f 20), ("focal_length", .i 28)]) ]
    color :=
      [ ("light", [("grade", .s "sepia_tint_light"), ("saturation", .i (-10)),
          ("contrast", .f 95), ("warmth", .f 10)])
      , ("medium", [("grade", .s "faded_film"), ("saturation", .i (-25)),
          ("contrast", .f 90), ("grain", .f 20)])
      , ("heavy", [("grade", .s "memory_lane"), ("saturation", .i (-40)),
          ("contrast", .f 85), ("blur", .f 10), ("grain", .f 40)]) ]
    vfx :=
      [ ("light", ["dust_motes"])
      , ("medium", ["film_grain_16mm", "vignette_soft"])
      , ("heavy", ["film_burn", "projector_flicker", "heavy_grain"]) ]
    ffmpeg := "colorchannelmixer=.393:.769:.189:0:.349:.686:.168:0:.272:.534:.131,noise=alls=20:allf=t,vignette=\x27PI/4*0.4\x27" }

def rageEntry : ArchetypeEntry :=
  { description := "Anger, fury, and revenge"
    camera :=
      [ ("light", [("movement", .s "static_tense"), ("angle", .s "eye_level"),
          ("speed", .f 0), ("focal_length", .i 50)])
      , ("medium", [("movement", .s "shaky_cam_build"), ("angle", .s "low_angle"),
          ("speed", .f 100), ("focal_length", .i 35)])
      , ("heavy", [("movement", .s "erratic_chaos"), ("angle", .s "dutch_extreme"),
          ("speed", .f 400), ("focal_length", .i 24)]) ]
    color :=
      [ ("light", [("grade", .s "cold_steel"), ("saturation", .i (-10)),
          ("contrast", .f 120)])
      , ("medium", [("grade", .s "simmering_heat"), ("saturation", .i 0),
          ("contrast", .f 140), ("red_tint", .f 10)])
      , ("heavy", [("grade", .s "seeing_red"), ("saturation", .i 20),
          ("contrast", .f 170), ("red_crush", .f 30)]) ]
    vfx :=
      [ ("light", ["heat_haze_subtle"])
      , ("medium", ["camera_shake_impact", "distortion_edges"])
      , ("heavy", ["chromatic_aberration_strong", "red_flash", "screen_tear"]) ]
    ffmpeg := "colorbalance=rs=0.2:rm=0.2:rh=0.2,eq=contrast=1.5:saturation=1.2,transform=\x27sin(2*PI*t*10)*5\x27" }

def serenityEntry : ArchetypeEntry :=
  { description := "Calm, peace, and nature"
    camera :=
      [ ("light", [("movement", .s "static_locked"), ("angle", .s "eye_level"),
          ("speed", .f 0), ("focal_length", .i 35)])
      , ("medium", [("movement", .s "slow_pan_landscape"), ("angle", .s "wide_angle"),
          ("speed", .f 10), ("focal_length", .i 24)])
      , ("heavy", [("movement", .s "drone_hover"), ("angle", .s "god_view"),
          ("speed", .f 5), ("focal_length", .i 16)]) ]
    color :=
      [ ("light", [("grade", .s "natural_balanced"), ("saturation", .i 0),
          ("contrast", .f 100)])
      , ("medium", [("grade", .s "cool_breeze"), ("saturation", .i 5),
          ("contrast", .f 95), ("blue_tint", .f 5)])
      , ("heavy", [("grade", .s "zen_garden"), ("saturation", .i 10),
          ("contrast", .f 90), ("diffusion", .f 20)]) ]
    vfx :=
      [ ("light", ["clean_frame"])
      , ("medium", ["mist_layer", "slow_particles"])
      , ("heavy", ["god_rays_subtle", "water_shimmer"]) ]
    ffmpeg := "eq=contrast=0.95:saturation=1.1,colorbalance=bs=0.1" }

/-- The module-level catalog `EMOTIONAL_INDEX` of
`src/emotional_index_v3.py`: twelve archetypes, insertion order preserved. -/
def EMOTIONAL_INDEX : List (String × ArchetypeEntry) :=
  [ ("curiosity", curiosityEntry)
  , ("fear", fearEntry)
  , ("triumph", triumphEntry)
  , ("tension", tensionEntry)
  , ("wonder", wonderEntry)
  , ("urgency", urgencyEntry)
  , ("melancholy", melancholyEntry)
  , ("romance", romanceEntry)
  , ("joy", joyEntry)
  , ("nostalgia", nostalgiaEntry)
  , ("rage", rageEntry)
  , ("serenity", serenityEntry) ]

/-- The empty dict default of `self.index.get("curiosity", \x7b\x7d)` in
`get_emotion_profile` (unreachable, since `curiosity` is a key of the
catalog). -/
def emptyArchetype : ArchetypeEntry :=
  { description := "", camera := [], color := [], vfx := [], ffmpeg := "" }

/-- Result shape of `EmotionalIndexManager.get_emotion_profile`: either the
intensity-selected profile dict built for a known emotion (keys `emotion`,
`intensity`, `description`, `camera`, `color`, `vfx`, `ffmpeg`), or the raw
catalog entry returned unchanged by the unknown-emotion fallback. -/
inductive ProfileResult where
  | selected (emotion intensity : String) (description : String)
      (camera color : List (String × PVal)) (vfx : List String) (ffmpeg : String)
  | raw (entry : ArchetypeEntry)
deriving Repr, DecidableEq

/-- `EmotionalIndexManager.get_emotion_profile` from
`src/emotional_index_v3.py` (lines 260-284): unknown emotions fall back to
the raw `curiosity` entry; known emotions yield the intensity-selected
profile, with empty-dict/list defaults for an unknown intensity. -/
def get_emotion_profile (emotion : String) (intensity : String) : ProfileResult :=
  match lookupAssoc EMOTIONAL_INDEX emotion with
  | none => .raw ((lookupAssoc EMOTIONAL_INDEX "curiosity").getD emptyArchetype)
  | some profile =>
      .selected emotion intensity profile.description
        ((lookupAssoc profile.camera intensity).getD [])
        ((lookupAssoc profile.color intensity).getD [])
        ((lookupAssoc profile.vfx intensity).getD [])
        profile.ffmpeg

/-- `EmotionalIndexManager.get_all_emotions`: the catalog keys in order. -/
def get_all_emotions : List String :=
  EMOTIONAL_INDEX.map Prod.fst

/-- `CinematographyEngine.validate_profile` from
`src/cinematography_engine.py` (lines 154-192), applied to the typed result
of `get_emotion_profile`. The Python checks that the profile is a dict with
keys `camera`, `color`, `vfx`, that `camera` is a dict with a `movement`
field, that `color` is a dict and `vfx` a list. On a `selected` result the
shape checks hold by construction and only the `movement`-field check is
live; on a `raw` catalog entry `camera` is keyed by intensity (so it has no
`movement` field) and `vfx` is a dict rather than a list, so both of those
checks fail. Error strings are abbreviated. -/
def validate_profile : ProfileResult → Bool × List String
  | .selected _ _ _ camera _color _vfx _ =>
      let errors : List String :=
        if (lookupAssoc camera "movement").isNone
        then ["Camera must have movement field"] else []
      (errors.isEmpty, errors)
  | .raw _ =>
      (false, ["Camera must have movement field", "VFX must be a list"])

/-- `ServiceStatus` from `src/redis_orchestrator.py`. -/
inductive ServiceStatus where
  | idle | processing | completed | failed | paused
deriving Repr, DecidableEq

/-- `.value` of a `ServiceStatus` member. -/
def ServiceStatus.value : ServiceStatus → String
  | .idle => "idle"
  | .processing => "processing"
  | .completed => "completed"
  | .failed => "failed"
  | .paused => "paused"

/-- A Redis hash under a `pipeline:state:` key, holding the serialized
fields of a `PipelineJob` plus the fields later merged in by
`update_job_status` and `move_to_dlq`. An absent hash field is `none`. -/
structure JobHash where
  job_id : Option String := none
  video_id : Option String := none
  emotion : Option String := none
  intensity : Option String := none
  status : Option String := none
  created_at : Option Nat := none
  started_at : Option Nat := none
  completed_at : Option Nat := none
  updated_at : Option Nat := none
  current_service : Option String := none
  error : Option String := none
  metadata : Option (List (String × String)) := none
  moved_to_dlq_at : Option Nat := none
deriving Repr, DecidableEq

/-- The Redis contents used by the orchestrator: the `pipeline:state:*`
hashes with their TTLs, the five stage queues and the dead-letter queue
(each a list of job snapshots, head first), plus the modelled wall clock. -/
structure RedisState where
  jobs : List (String × JobHash) := []
  ttls : List (String × Nat) := []
  oracleQ : List JobHash := []
  tricksterQ : List JobHash := []
  cartographerQ : List JobHash := []
  spectacleQ : List JobHash := []
  ironistQ : List JobHash := []
  dlqQ : List JobHash := []
  clock : Nat := 0
deriving Repr, DecidableEq

/-- One call to `time.time()`: returns the current clock value and advances
the clock, so later calls observe a strictly larger value. -/
def tick (st : RedisState) : Nat × RedisState :=
  (st.clock, { st with clock := st.clock + 1 })

/-- Python string truthiness of an `Optional[str]`: `None` and `""` are
falsy. -/
def strTruthy : Option String → Bool
  | none => false
  | some s => !s.isEmpty

/-- `redis.hset(key, mapping=...)` merge semantics on a `pipeline:state:*`
hash: apply the partial update `f` to the existing hash, or to a fresh
empty hash when the key does not exist (Redis creates it). -/
def hsetMerge (m : List (String × JobHash)) (k : String) (f : JobHash → JobHash) :
    List (String × JobHash) :=
  match lookupAssoc m k with
  | some h => setAssoc m k (f h)
  | none => setAssoc m k (f {})

/-- `RedisOrchestrator.submit_job` from `src/redis_orchestrator.py`
(lines 85-121): derives `job_id` from the video id and the millisecond
timestamp, stores the job hash with `status = "idle"` and a 24-hour TTL,
and pushes the same snapshot onto the oracle queue. No validation of
`emotion` or `intensity` is performed. -/
def submit_job (video_id emotion intensity : String)
    (metadata : Option (List (String × String))) (st : RedisState) :
    String × RedisState :=
  let (t_ms, st) := tick st
  let job_id := video_id ++ "_" ++ toString (t_ms * 1000)
  let (t_created, st) := tick st
  let job : JobHash :=
    { job_id := some job_id
      video_id := some video_id
      emotion := some emotion
      intensity := some intensity
      status := some ServiceStatus.idle.value
      created_at := some t_created
      metadata := some (metadata.getD []) }
  let st :=
    { st with
      jobs := setAssoc st.jobs job_id job
      ttls := setAssoc st.ttls job_id 86400
      oracleQ := st.oracleQ ++ [job] }
  (job_id, st)

/-- `RedisOrchestrator.get_job_status`: `hgetall` on the state key,
`none` when the key holds no hash. -/
def get_job_status (job_id : String) (st : RedisState) : Option JobHash :=
  lookupAssoc st.jobs job_id

/-- `RedisOrchestrator.update_job_status` from `src/redis_orchestrator.py`
(lines 129-147): unconditionally merges the requested status and an
`updated_at` timestamp into the hash, adding `current_service`/`started_at`
for a processing update with a truthy service, `completed_at` for a
completed update, and `error` for a failed update with a truthy error.
The source performs no transition validation and reports no error. -/
def update_job_status (job_id : String) (status : ServiceStatus)
    (service error : Option String) (st : RedisState) : RedisState :=
  let (t_upd, st) := tick st
  if status = ServiceStatus.processing ∧ strTruthy service then
    let (t_start, st) := tick st
    { st with jobs := hsetMerge st.jobs job_id (fun h =>
        { h with status := some status.value, updated_at := some t_upd,
                 current_service := service, started_at := some t_start }) }
  else if status = ServiceStatus.completed then
    let (t_done, st) := tick st
    { st with jobs := hsetMerge st.jobs job_id (fun h =>
        { h with status := some status.value, updated_at := some t_upd,
                 completed_at := some t_done }) }
  else if status = ServiceStatus.failed ∧ strTruthy error then
    { st with jobs := hsetMerge st.jobs job_id (fun h =>
        { h with status := some status.value, updated_at := some t_upd,
                 error := error }) }
  else
    { st with jobs := hsetMerge st.jobs job_id (fun h =>
        { h with status := some status.value, updated_at := some t_upd }) }

/-- `RedisOrchestrator.move_to_dlq` from `src/redis_orchestrator.py`
(lines 193-202): snapshot the current state hash, stamp it with the error
text and a move timestamp, and append it to the dead-letter queue; a
missing job is a silent no-op. The stored state hash itself is not
modified. -/
def move_to_dlq (job_id : String) (error : String) (st : RedisState) : RedisState :=
  match lookupAssoc st.jobs job_id with
  | none => st
  | some job_data =>
      let (t_moved, st) := tick st
      { st with dlqQ := st.dlqQ ++
          [{ job_data with error := some error, moved_to_dlq_at := some t_moved }] }

/-- `RedisOrchestrator.reset_pipeline` from `src/redis_orchestrator.py`
(lines 270-295): without `confirm` it returns `False` and changes nothing;
with `confirm` it deletes every queue key and every `pipeline:state:*` key
(the TTLs go with the deleted keys) and returns `True`. -/
def reset_pipeline (confirm : Bool) (st : RedisState) : Bool × RedisState :=
  if !confirm then (false, st)
  else
    (true,
      { st with jobs := [], ttls := [], oracleQ := [], tricksterQ := [],
                cartographerQ := [], spectacleQ := [], ironistQ := [], dlqQ := [] })

/-- Connectivity conditions of the Redis client during `health_check`:
whether `ping`, the queue `llen` reads, and the `scan_iter` enumeration
succeed, and how many `emotional_vertices:*` keys the scan would count. -/
structure RedisConn where
  pingOk : Bool
  llenOk : Bool
  scanOk : Bool
  seededCount : Nat
deriving Repr, DecidableEq

/-- The dict returned by `health_check`. -/
structure HealthReport where
  redis_connected : Bool
  queues_accessible : Bool
  emotional_index_loaded : Bool
deriving Repr, DecidableEq

/-- `RedisOrchestrator.health_check` from `src/redis_orchestrator.py`
(lines 237-268): starts from all-false; if `ping` raises it returns
immediately (the queue and index checks are not attempted); otherwise the
queue-length reads and the seeded-key count (threshold 24) each set their
flag inside separate try blocks. -/
def health_check (conn : RedisConn) : HealthReport :=
  let health : HealthReport :=
    { redis_connected := false, queues_accessible := false,
      emotional_index_loaded := false }
  if !conn.pingOk then health
  else
    let health := { health with redis_connected := true }
    let health :=
      if conn.llenOk then { health with queues_accessible := true } else health
    let health :=
      if conn.scanOk then
        { health with emotional_index_loaded := decide (conn.seededCount ≥ 24) }
      else health
    health

/-- The `self.stats` counters of `PipelineOrchestrator`. -/
structure PipelineStats where
  jobs_submitted : Nat := 0
  jobs_completed : Nat := 0
  jobs_failed : Nat := 0
  total_processing_time : Nat := 0
deriving Repr, DecidableEq

/-- The mutable state of a `PipelineOrchestrator` from
`src/pipeline_orchestrator.py`: whether the Redis connection succeeded at
construction, the Redis contents, the `enable_quality_gates` config flag,
and the statistics counters. -/
structure OrchestratorState where
  redis_available : Bool := true
  redis : RedisState := {}
  enable_quality_gates : Bool := true
  stats : PipelineStats := {}
deriving Repr, DecidableEq

/-- `PipelineOrchestrator.submit_video_job` from
`src/pipeline_orchestrator.py` (lines 80-132): validates the emotion
against the catalog keys and the intensity against
`light`/`medium`/`heavy`, validates the retrieved profile, then either
submits through the Redis orchestrator or (degraded local mode) only
derives a local job id; each validation failure returns `None` before any
state is touched. -/
def submit_video_job (video_id emotion intensity : String)
    (metadata : Option (List (String × String))) (ps : OrchestratorState) :
    Option String × OrchestratorState :=
  if emotion ∉ get_all_emotions then (none, ps)
  else if intensity ∉ (["light", "medium", "heavy"] : List String) then (none, ps)
  else
    let profile := get_emotion_profile emotion intensity
    let (is_valid, _errors) := validate_profile profile
    if !is_valid then (none, ps)
    else if ps.redis_available then
      let (job_id, rd) := submit_job video_id emotion intensity metadata ps.redis
      (some job_id,
        { ps with redis := rd,
                  stats := { ps.stats with
                    jobs_submitted := ps.stats.jobs_submitted + 1 } })
    else
      let (t_ms, rd) := tick ps.redis
      let job_id := video_id ++ "_" ++ toString (t_ms * 1000)
      (some job_id,
        { ps with redis := rd,
                  stats := { ps.stats with
                    jobs_submitted := ps.stats.jobs_submitted + 1 } })

/-- The `except` handler of `PipelineOrchestrator.process_job`
(lines 209-214): count the failure, move the job to the dead-letter queue
when Redis is available, and report `False`. The stored job record is not
set to failed and no error is recorded on it. -/
def fail_stage (job_id : String) (error : String) (ps : OrchestratorState) :
    Bool × OrchestratorState :=
  let ps := { ps with stats := { ps.stats with
    jobs_failed := ps.stats.jobs_failed + 1 } }
  if ps.redis_available then
    (false, { ps with redis := move_to_dlq job_id error ps.redis })
  else (false, ps)

/-- `PipelineOrchestrator.process_job` from `src/pipeline_orchestrator.py`
(lines 134-214): drives the job synchronously through the fixed 8-stage
sequence. Stages 1-5 each merge a `processing` status update naming the
stage; stage 3 additionally retrieves the profile and generates the filter
chain (the chain is only logged) and stage 5 runs the quality gates (the
result is only logged); stages 6-8 only log. On completing all stages it
merges the `completed` status. `stage_raises k = some msg` models the
delegated work of stage `k` raising after that stage's status update, which
transfers control to the `except` handler (`fail_stage`). -/
def process_job (stage_raises : Nat → Option String) (job_id : String)
    (ps0 : OrchestratorState) : Bool × OrchestratorState :=
  let (start_time, rd0) := tick ps0.redis
  let ps := { ps0 with redis := rd0 }
  if !ps.redis_available then (false, ps)
  else
    match get_job_status job_id ps.redis with
    | none => (false, ps)
    | some job =>
      let rd := update_job_status job_id ServiceStatus.processing (some "oracle") none ps.redis
      match stage_raises 1 with
      | some e => fail_stage job_id e { ps with redis := rd }
      | none =>
      let rd := update_job_status job_id ServiceStatus.processing (some "trickster") none rd
      match stage_raises 2 with
      | some e => fail_stage job_id e { ps with redis := rd }
      | none =>
      let rd := update_job_status job_id ServiceStatus.processing (some "cartographer") none rd
      let profile := get_emotion_profile (job.emotion.getD "") (job.intensity.getD "")
      match stage_raises 3 with
      | some e => fail_stage job_id e { ps with redis := rd }
      | none =>
      let rd := update_job_status job_id ServiceStatus.processing (some "spectacle") none rd
      match stage_raises 4 with
      | some e => fail_stage job_id e { ps with redis := rd }
      | none =>
      let rd := update_job_status job_id ServiceStatus.processing (some "ironist") none rd
      let _quality := if ps.enable_quality_gates then validate_profile profile else (true, [])
      match stage_raises 5 with
      | some e => fail_stage job_id e { ps with redis := rd }
      | none =>
      match stage_raises 6 with
      | some e => fail_stage job_id e { ps with redis := rd }
      | none =>
      match stage_raises 7 with
      | some e => fail_stage job_id e { ps with redis := rd }
      | none =>
      match stage_raises 8 with
      | some e => fail_stage job_id e { ps with redis := rd }
      | none =>
      let (t_end, rd) := tick rd
      let elapsed := t_end - start_time
      let rd := update_job_status job_id ServiceStatus.completed none none rd
      (true,
        { ps with redis := rd,
                  stats := { ps.stats with
                    jobs_completed := ps.stats.jobs_completed + 1,
                    total_processing_time := ps.stats.total_processing_time + elapsed } })

/-- One element of the `jobs` argument of `batch_process`: the optional
`video_id`, `emotion` and `intensity` fields of a job-spec dict. -/
structure JobSpec where
  video_id : Option String := none
  emotion : Option String := none
  intensity : Option String := none
deriving Repr, DecidableEq

/-- The results dict of `batch_process`. -/
structure BatchResults where
  total : Nat
  successful : Nat := 0
  failed : Nat := 0
  job_ids : List String := []
deriving Repr, DecidableEq

/-- Python rendering of an optional string in an f-string: `None` prints as
`"None"`. -/
def pyStr : Option String → String
  | none => "None"
  | some s => s

/-- The loop body of `batch_process` over the remaining specs; `raises` is
the per-job stage-outcome function (indexed by position in the batch). -/
def batch_go (raises : Nat → Nat → Option String) (idx : Nat)
    (specs : List JobSpec) (res : BatchResults) (ps : OrchestratorState) :
    BatchResults × OrchestratorState :=
  match specs with
  | [] => (res, ps)
  | spec :: rest =>
      let (job_id?, ps) :=
        submit_video_job (pyStr spec.video_id) (spec.emotion.getD "curiosity")
          (spec.intensity.getD "medium") none ps
      if strTruthy job_id? then
        let res := { res with job_ids := res.job_ids ++ [job_id?.getD ""] }
        let (ok, ps) := process_job (raises idx) (job_id?.getD "") ps
        let res :=
          if ok then { res with successful := res.successful + 1 }
          else { res with failed := res.failed + 1 }
        batch_go raises (idx + 1) rest res ps
      else
        batch_go raises (idx + 1) rest { res with failed := res.failed + 1 } ps

/-- `PipelineOrchestrator.batch_process` from `src/pipeline_orchestrator.py`
(lines 216-248): initializes `total` to the number of specs and processes
each spec independently (submit, then process when submission produced a
truthy job id), counting exactly one of `successful`/`failed` per spec. -/
def batch_process (raises : Nat → Nat → Option String) (jobs : List JobSpec)
    (ps : OrchestratorState) : BatchResults × OrchestratorState :=
  batch_go raises 0 jobs { total := jobs.length } ps

/-! ## Helper lemmas and spec-side definitions -/

theorem lookupAssoc_eq_none_of_not_mem {α : Type} (m : List (String × α)) (k : String)
    (h : k ∉ m.map Prod.fst) : lookupAssoc m k = none := by
  induction m with
  | nil => rfl
  | cons hd tl ih =>
      simp only [List.map_cons, List.mem_cons, not_or] at h
      have hne : hd.1 ≠ k := fun hh => h.1 hh.symm
      simp [lookupAssoc, hne, ih h.2]

@[simp] theorem strTruthy_none : strTruthy none = false := rfl

@[simp] theorem strTruthy_oracle : strTruthy (some "oracle") = true := by decide

@[simp] theorem strTruthy_trickster : strTruthy (some "trickster") = true := by decide

@[simp] theorem strTruthy_cartographer : strTruthy (some "cartographer") = true := by decide

@[simp] theorem strTruthy_spectacle : strTruthy (some "spectacle") = true := by decide

@[simp] theorem strTruthy_ironist : strTruthy (some "ironist") = true := by decide

/-- Modelled from the spec: the job state machine of section 4.1
(states `Idle → Processing → Completed/Failed` and `Processing ↔ Paused`);
the source has no counterpart of this transition check, so the allowed
relation is written from the spec to state claims about disallowed
transitions. -/
def allowedTransition : String → String → Bool
  | "idle", "processing" => true
  | "processing", "completed" => true
  | "processing", "failed" => true
  | "processing", "paused" => true
  | "paused", "processing" => true
  | _, _ => false

/-- Non-emptiness of the camera/color/vfx components of an
intensity-selected profile; a raw fallback entry is not of the selected
shape. -/
def ProfileResult.hasNonEmptyComponents : ProfileResult → Bool
  | .selected _ _ _ camera color vfx _ =>
      !camera.isEmpty && !color.isEmpty && !vfx.isEmpty
  | .raw _ => false

/-! ## Claims -/

/-- Claim C4 (counterexample): the three sub-checks of `health_check` are
not independent. Under identical queue/scan conditions (`llen` and `scan`
would succeed, 24 seeded keys), a ping failure makes the report show
`queues_accessible = false` and `emotional_index_loaded = false`, while
with a successful ping the very same conditions yield `true` for both:
the ping failure returns early and the other two checks are never
attempted. -/
theorem c4_counterexample :
    (health_check (RedisConn.mk false true true 24)).redis_connected = false ∧
    (health_check (RedisConn.mk false true true 24)).queues_accessible = false ∧
    (health_check (RedisConn.mk false true true 24)).emotional_index_loaded = false ∧
    (health_check (RedisConn.mk true true true 24)).queues_accessible = true ∧
    (health_check (RedisConn.mk true true true 24)).emotional_index_loaded = true := by decide

/-- Claim C4 (amended): `health_check` reports `redis_connected = false`
exactly when the store ping fails; but the three sub-checks are not
independent: whenever the ping fails, `health_check` returns immediately
with all three fields `false`, without attempting the queue or
reference-data checks. -/
theorem c4_amended_ping_failure_gates_other_checks :
    (∀ conn : RedisConn, (health_check conn).redis_connected = conn.pingOk) ∧
    (∀ (llenOk scanOk : Bool) (seededCount : Nat),
      health_check (RedisConn.mk false llenOk scanOk seededCount) =
        HealthReport.mk false false false) := by
  constructor
  · intro conn
    cases h : conn.pingOk <;> cases h2 : conn.llenOk <;> cases h3 : conn.scanOk <;>
      simp [health_check, h, h2, h3]
  · intro llenOk scanOk seededCount
    simp [health_check]

/-- Claim C7: `reset_pipeline` without the confirmation flag returns
`False` and leaves the entire Redis state (every queue and every state
record) unchanged; with the flag it returns `True` and clears every queue,
every state record and the TTL table. -/
theorem c7_reset_requires_confirmation (st : RedisState) :
    reset_pipeline false st = (false, st) ∧
    (reset_pipeline true st).1 = true ∧
    (reset_pipeline true st).2.jobs = [] ∧
    (reset_pipeline true st).2.ttls = [] ∧
    (reset_pipeline true st).2.oracleQ = [] ∧
    (reset_pipeline true st).2.tricksterQ = [] ∧
    (reset_pipeline true st).2.cartographerQ = [] ∧
    (reset_pipeline true st).2.spectacleQ = [] ∧
    (reset_pipeline true st).2.ironistQ = [] ∧
    (reset_pipeline true st).2.dlqQ = [] := by
  simp [reset_pipeline]

/-- Claim C8: for each of the 12 catalog archetypes and each of the three
intensities, `get_emotion_profile` returns an intensity-selected profile
whose camera, color and vfx components are all present and non-empty. -/
theorem c8_profile_retrieval_nonempty :
    ∀ emotion ∈ get_all_emotions, ∀ intensity ∈ ["light", "medium", "heavy"],
      (get_emotion_profile emotion intensity).hasNonEmptyComponents = true := by
  decide

/-- Claim C8 (witness): concrete instance at `curiosity`/`light`. -/
theorem c8_profile_retrieval_nonempty_witness :
    "curiosity" ∈ get_all_emotions ∧ "light" ∈ ["light", "medium", "heavy"] ∧
    (get_emotion_profile "curiosity" "light").hasNonEmptyComponents = true :=
  ⟨by decide, by decide,
    c8_profile_retrieval_nonempty "curiosity" (by decide) "light" (by decide)⟩

/-- Claim C9: for every emotion name outside the 12-member index,
`get_emotion_profile` does not fail: it returns the raw `curiosity`
catalog entry — the full archetype whose camera, color and vfx are still
keyed by all three intensity variants — rather than the intensity-selected
shape produced for known emotions. -/
theorem c9_unknown_emotion_returns_raw_curiosity (emotion intensity : String)
    (h : emotion ∉ get_all_emotions) :
    get_emotion_profile emotion intensity = ProfileResult.raw curiosityEntry ∧
    curiosityEntry.camera.map Prod.fst = ["light", "medium", "heavy"] ∧
    curiosityEntry.color.map Prod.fst = ["light", "medium", "heavy"] ∧
    curiosityEntry.vfx.map Prod.fst = ["light", "medium", "heavy"] := by
  refine ⟨?_, by decide, by decide, by decide⟩
  have hnone : lookupAssoc EMOTIONAL_INDEX emotion = none :=
    lookupAssoc_eq_none_of_not_mem _ _ h
  simp [get_emotion_profile, hnone]
  decide

/-- Claim C9 (witness): concrete instance at emotion `not_an_emotion`. -/
theorem c9_unknown_emotion_returns_raw_curiosity_witness :
    "not_an_emotion" ∉ get_all_emotions ∧
    get_emotion_profile "not_an_emotion" "medium" = ProfileResult.raw curiosityEntry :=
  ⟨by decide,
    (c9_unknown_emotion_returns_raw_curiosity "not_an_emotion" "medium" (by decide)).1⟩

/-- Claim C10: the store-level `submit_job` performs no validation: for
every pair of strings `emotion` and `intensity` it creates a state record
with `status = "idle"` and a 24-hour (86400 s) expiry, appends the same
snapshot to the oracle queue (touching no other queue), and returns a job
id of the form `video_id ++ "_" ++ millisecond-timestamp`. -/
theorem c10_submit_job_no_validation (video_id emotion intensity : String)
    (metadata : Option (List (String × String))) (st : RedisState) :
    ∃ job : JobHash,
      (submit_job video_id emotion intensity metadata st).1
        = video_id ++ "_" ++ toString (st.clock * 1000) ∧
      lookupAssoc (submit_job video_id emotion intensity metadata st).2.jobs
          (submit_job video_id emotion intensity metadata st).1 = some job ∧
      job.status = some "idle" ∧
      job.emotion = some emotion ∧
      job.intensity = some intensity ∧
      job.video_id = some video_id ∧
      lookupAssoc (submit_job video_id emotion intensity metadata st).2.ttls
          (submit_job video_id emotion intensity metadata st).1 = some 86400 ∧
      (submit_job video_id emotion intensity metadata st).2.oracleQ
        = st.oracleQ ++ [job] ∧
      (submit_job video_id emotion intensity metadata st).2.tricksterQ = st.tricksterQ ∧
      (submit_job video_id emotion intensity metadata st).2.cartographerQ = st.cartographerQ ∧
      (submit_job video_id emotion intensity metadata st).2.spectacleQ = st.spectacleQ ∧
      (submit_job video_id emotion intensity metadata st).2.ironistQ = st.ironistQ ∧
      (submit_job video_id emotion intensity metadata st).2.dlqQ = st.dlqQ := by
  refine ⟨⟨some (video_id ++ "_" ++ toString (st.clock * 1000)), some video_id,
      some emotion, some intensity, some ServiceStatus.idle.value, some (st.clock + 1),
      none, none, none, none, none, some (metadata.getD []), none⟩,
    ?_, ?_, rfl, rfl, rfl, rfl, ?_, ?_, rfl, rfl, rfl, rfl, rfl⟩ <;>
    simp [submit_job, tick, ServiceStatus.value]

/-- Claim C1 (counterexample): the transition `completed → idle` is outside
the section-4.1 state machine, yet `update_job_status` applies it: on a
store holding job `j` with status `completed`, requesting status `idle`
leaves the stored status changed to `idle` (no error of any kind is
reported — the operation has no error channel). -/
theorem c1_counterexample :
    allowedTransition "completed" "idle" = false ∧
    lookupAssoc (update_job_status "j" ServiceStatus.idle none none
        { jobs := [("j", { status := some "completed" })] }).jobs "j"
      = some { status := some "idle", updated_at := some 0 } := by decide

/-- Claim C1 (amended): `update_job_status` performs no transition
validation: for every stored job and every requested status — including
every transition outside the state machine `Idle → Processing →
Completed/Failed`, `Processing ↔ Paused` — the stored status is
unconditionally overwritten with the requested value, and no
`InvalidTransition` error exists (the operation is total and errorless). -/
theorem c1_amended_any_transition_applied (job_id : String)
    (status : ServiceStatus) (service error : Option String) (st : RedisState)
    (rec : JobHash) (hrec : lookupAssoc st.jobs job_id = some rec)
    (_hbad : allowedTransition (rec.status.getD "") status.value = false) :
    ∃ rec', lookupAssoc (update_job_status job_id status service error st).jobs job_id
        = some rec' ∧ rec'.status = some status.value := by
  have hm : ∀ f : JobHash → JobHash,
      lookupAssoc (hsetMerge st.jobs job_id f) job_id = some (f rec) := by
    intro f
    simp [hsetMerge, hrec]
  simp only [update_job_status, tick]
  split_ifs <;> exact ⟨_, hm _, rfl⟩

/-- Claim C1 (amended, witness): concrete instance of the disallowed
transition `completed → idle` being applied. -/
theorem c1_amended_any_transition_applied_witness :
    ∃ rec', lookupAssoc (update_job_status "j" ServiceStatus.idle none none
        { jobs := [("j", { status := some "completed" })] }).jobs "j"
      = some rec' ∧ rec'.status = some ServiceStatus.idle.value :=
  c1_amended_any_transition_applied "j" ServiceStatus.idle none none
    { jobs := [("j", { status := some "completed" })] }
    { status := some "completed" } (by decide) (by decide)

/-- Claim C3: a submission whose emotion is outside the 12-member catalog
or whose intensity is outside light/medium/heavy fails validation:
`submit_video_job` returns `None` and the whole orchestrator state
(Redis contents, queues and statistics) is exactly unchanged. -/
theorem c3_invalid_submission_no_side_effects (video_id emotion intensity : String)
    (metadata : Option (List (String × String))) (ps : OrchestratorState)
    (h : emotion ∉ get_all_emotions ∨ intensity ∉ ["light", "medium", "heavy"]) :
    submit_video_job video_id emotion intensity metadata ps = (none, ps) := by
  rcases h with h | h
  · simp [submit_video_job, h]
  · by_cases he : emotion ∈ get_all_emotions
    · simp [submit_video_job, he, h]
    · simp [submit_video_job, he]

/-- Claim C3 (witness): concrete rejected submission with an unknown
emotion, starting from the default orchestrator state. -/
theorem c3_invalid_submission_no_side_effects_witness :
    ("not_an_emotion" ∉ get_all_emotions ∨
      "medium" ∉ (["light", "medium", "heavy"] : List String)) ∧
    submit_video_job "video_002" "not_an_emotion" "medium" none {} = (none, {}) :=
  ⟨Or.inl (by decide),
    c3_invalid_submission_no_side_effects "video_002" "not_an_emotion" "medium" none {}
      (Or.inl (by decide))⟩

theorem batch_go_counts (raises : Nat → Nat → Option String) (specs : List JobSpec) :
    ∀ (idx : Nat) (res : BatchResults) (ps : OrchestratorState),
      (batch_go raises idx specs res ps).1.successful
          + (batch_go raises idx specs res ps).1.failed
        = res.successful + res.failed + specs.length ∧
      (batch_go raises idx specs res ps).1.total = res.total := by
  induction specs with
  | nil =>
      intro idx res ps
      simp [batch_go]
  | cons spec rest ih =>
      intro idx res ps
      rw [batch_go]
      rcases hsub : submit_video_job (pyStr spec.video_id) (spec.emotion.getD "curiosity")
          (spec.intensity.getD "medium") none ps with ⟨job_id?, ps1⟩
      dsimp only
      by_cases ht : strTruthy job_id? = true
      · rw [if_pos ht]
        rcases hproc : process_job (raises idx) (job_id?.getD "") ps1 with ⟨ok, ps2⟩
        dsimp only
        cases ok
        · have h := ih (idx + 1)
            { total := res.total, successful := res.successful,
              failed := res.failed + 1, job_ids := res.job_ids ++ [job_id?.getD ""] } ps2
          simp only [Bool.false_eq_true, if_false, List.length_cons] at h ⊢
          omega
        · have h := ih (idx + 1)
            { total := res.total, successful := res.successful + 1,
              failed := res.failed, job_ids := res.job_ids ++ [job_id?.getD ""] } ps2
          simp only [if_true, List.length_cons] at h ⊢
          omega
      · rw [if_neg ht]
        have h := ih (idx + 1)
          { total := res.total, successful := res.successful,
            failed := res.failed + 1, job_ids := res.job_ids } ps1
        simp only [List.length_cons] at h ⊢
        omega

/-- Claim C5: `batch_process` over a list of N job specs processes each
spec independently — every spec contributes exactly one of
`successful`/`failed` regardless of any other job's outcome — and the
returned counts always satisfy `successful + failed = total = N`. -/
theorem c5_batch_counts_add_up (raises : Nat → Nat → Option String)
    (jobs : List JobSpec) (ps : OrchestratorState) :
    (batch_process raises jobs ps).1.successful
        + (batch_process raises jobs ps).1.failed
      = (batch_process raises jobs ps).1.total ∧
    (batch_process raises jobs ps).1.total = jobs.length := by
  have h := batch_go_counts raises jobs 0 { total := jobs.length } ps
  unfold batch_process
  simp only at h
  exact ⟨by omega, h.2⟩

/-- Claim C6: a job submitted to the store and then advanced by
`process_job` through all 8 stages with no stage raising ends with
`status = "completed"` and `completed_at` set, and its timestamps satisfy
`created_at ≤ started_at ≤ completed_at`. -/
theorem c6_full_run_completes (video_id emotion intensity : String)
    (metadata : Option (List (String × String))) (ps : OrchestratorState)
    (stage_raises : Nat → Option String)
    (hav : ps.redis_available = true)
    (hok : ∀ k, stage_raises k = none) :
    (process_job stage_raises
        (submit_job video_id emotion intensity metadata ps.redis).1
        { ps with redis := (submit_job video_id emotion intensity metadata ps.redis).2 }).1
      = true ∧
    ∃ rec c s d,
      lookupAssoc (process_job stage_raises
          (submit_job video_id emotion intensity metadata ps.redis).1
          { ps with redis := (submit_job video_id emotion intensity metadata ps.redis).2 }).2.redis.jobs
        (submit_job video_id emotion intensity metadata ps.redis).1 = some rec ∧
      rec.status = some "completed" ∧
      rec.created_at = some c ∧ rec.started_at = some s ∧ rec.completed_at = some d ∧
      c ≤ s ∧ s ≤ d := by
  simp [process_job, submit_job, update_job_status, get_job_status, hsetMerge, tick, hav,
    hok, fail_stage, ServiceStatus.value]

/-- Claim C6 (witness): the spec scenario `submit("video_001", "curiosity",
"medium")` then advance with no stage raising, from the default state. -/
theorem c6_full_run_completes_witness :
    (process_job (fun _ => none)
        (submit_job "video_001" "curiosity" "medium" none ({} : OrchestratorState).redis).1
        { ({} : OrchestratorState) with
            redis := (submit_job "video_001" "curiosity" "medium" none
              ({} : OrchestratorState).redis).2 }).1 = true ∧
    ∃ rec c s d,
      lookupAssoc (process_job (fun _ => none)
          (submit_job "video_001" "curiosity" "medium" none ({} : OrchestratorState).redis).1
          { ({} : OrchestratorState) with
              redis := (submit_job "video_001" "curiosity" "medium" none
                ({} : OrchestratorState).redis).2 }).2.redis.jobs
        (submit_job "video_001" "curiosity" "medium" none ({} : OrchestratorState).redis).1
        = some rec ∧
      rec.status = some "completed" ∧
      rec.created_at = some c ∧ rec.started_at = some s ∧ rec.completed_at = some d ∧
      c ≤ s ∧ s ≤ d :=
  c6_full_run_completes "video_001" "curiosity" "medium" none {} (fun _ => none)
    rfl (fun _ => rfl)

/-- Claim C2 (counterexample): for the concrete job `v_0` (submitted with
emotion `curiosity`) whose stage-3 work raises `boom`, the stored record
ends with `status = "processing"` — not `"failed"` — and no error recorded
on it; the dead-letter queue holds exactly one entry for `v_0`, carrying
the attributes plus the error text and a move timestamp. This refutes the
claim that the job ends with `status=Failed` and the error recorded on the
job record. -/
theorem c2_counterexample :
    (process_job (fun k => if k = 3 then some "boom" else none) "v_0"
        { redis := (submit_job "v" "curiosity" "medium" none {}).2 }).1 = false ∧
    (lookupAssoc (process_job (fun k => if k = 3 then some "boom" else none) "v_0"
        { redis := (submit_job "v" "curiosity" "medium" none {}).2 }).2.redis.jobs
      "v_0").map JobHash.status = some (some "processing") ∧
    (lookupAssoc (process_job (fun k => if k = 3 then some "boom" else none) "v_0"
        { redis := (submit_job "v" "curiosity" "medium" none {}).2 }).2.redis.jobs
      "v_0").map JobHash.error = some none ∧
    (process_job (fun k => if k = 3 then some "boom" else none) "v_0"
        { redis := (submit_job "v" "curiosity" "medium" none {}).2 }).2.redis.dlqQ.map
      JobHash.job_id = [some "v_0"] ∧
    (process_job (fun k => if k = 3 then some "boom" else none) "v_0"
        { redis := (submit_job "v" "curiosity" "medium" none {}).2 }).2.redis.dlqQ.map
      JobHash.error = [some "boom"] ∧
    (process_job (fun k => if k = 3 then some "boom" else none) "v_0"
        { redis := (submit_job "v" "curiosity" "medium" none {}).2 }).2.redis.dlqQ.map
      JobHash.moved_to_dlq_at = [some 9] := by decide

/-- Claim C2 (amended): for every stored job whose stage `k` (1 ≤ k ≤ 8,
the first stage that raises) raises during advance, `process_job` reports
failure and appends exactly one dead-letter entry for that job: the entry
is precisely the stored record for that `job_id` at failure time — which
still carries the original `job_id`, `video_id`, `emotion`, `intensity`,
`created_at` and `metadata` attributes — with the error text and a move
timestamp added. But the stored record is NOT marked failed: its status
remains `"processing"` and its error field is unchanged. -/
theorem c2_amended_dlq_entry_without_failed_status
    (ps : OrchestratorState) (job_id : String) (rec : JobHash)
    (stage_raises : Nat → Option String) (k : Nat) (msg : String)
    (hav : ps.redis_available = true)
    (hrec : lookupAssoc ps.redis.jobs job_id = some rec)
    (hk1 : 1 ≤ k) (hk8 : k ≤ 8)
    (hfirst : ∀ j, j < k → stage_raises j = none)
    (hmsg : stage_raises k = some msg) :
    (process_job stage_raises job_id ps).1 = false ∧
    ∃ rec' t,
      lookupAssoc (process_job stage_raises job_id ps).2.redis.jobs job_id = some rec' ∧
      rec'.status = some "processing" ∧
      rec'.error = rec.error ∧
      rec'.job_id = rec.job_id ∧
      rec'.video_id = rec.video_id ∧
      rec'.emotion = rec.emotion ∧
      rec'.intensity = rec.intensity ∧
      rec'.created_at = rec.created_at ∧
      rec'.metadata = rec.metadata ∧
      (process_job stage_raises job_id ps).2.redis.dlqQ
        = ps.redis.dlqQ ++ [{ rec' with error := some msg, moved_to_dlq_at := some t }] := by
  interval_cases k
  · simp [process_job, update_job_status, get_job_status, hsetMerge, tick, hav, hrec,
      fail_stage, move_to_dlq, hmsg, ServiceStatus.value]
  · simp [process_job, update_job_status, get_job_status, hsetMerge, tick, hav, hrec,
      fail_stage, move_to_dlq, hmsg, hfirst 1 (by omega), ServiceStatus.value]
  · simp [process_job, update_job_status, get_job_status, hsetMerge, tick, hav, hrec,
      fail_stage, move_to_dlq, hmsg, hfirst 1 (by omega), hfirst 2 (by omega),
      ServiceStatus.value]
  · simp [process_job, update_job_status, get_job_status, hsetMerge, tick, hav, hrec,
      fail_stage, move_to_dlq, hmsg, hfirst 1 (by omega), hfirst 2 (by omega),
      hfirst 3 (by omega), ServiceStatus.value]
  · simp [process_job, update_job_status, get_job_status, hsetMerge, tick, hav, hrec,
      fail_stage, move_to_dlq, hmsg, hfirst 1 (by omega), hfirst 2 (by omega),
      hfirst 3 (by omega), hfirst 4 (by omega), ServiceStatus.value]
  · simp [process_job, update_job_status, get_job_status, hsetMerge, tick, hav, hrec,
      fail_stage, move_to_dlq, hmsg, hfirst 1 (by omega), hfirst 2 (by omega),
      hfirst 3 (by omega), hfirst 4 (by omega), hfirst 5 (by omega), ServiceStatus.value]
  · simp [process_job, update_job_status, get_job_status, hsetMerge, tick, hav, hrec,
      fail_stage, move_to_dlq, hmsg, hfirst 1 (by omega), hfirst 2 (by omega),
      hfirst 3 (by omega), hfirst 4 (by omega), hfirst 5 (by omega), hfirst 6 (by omega),
      ServiceStatus.value]
  · simp [process_job, update_job_status, get_job_status, hsetMerge, tick, hav, hrec,
      fail_stage, move_to_dlq, hmsg, hfirst 1 (by omega), hfirst 2 (by omega),
      hfirst 3 (by omega), hfirst 4 (by omega), hfirst 5 (by omega), hfirst 6 (by omega),
      hfirst 7 (by omega), ServiceStatus.value]

/-- Claim C2 (amended, witness): concrete instance — job `v_0`, stage 3
raising `boom`. -/
theorem c2_amended_dlq_entry_without_failed_status_witness :
    (process_job (fun k => if k = 3 then some "boom" else none) "v_0"
        { redis := (submit_job "v" "curiosity" "medium" none {}).2 }).1 = false ∧
    ∃ rec' t,
      lookupAssoc (process_job (fun k => if k = 3 then some "boom" else none) "v_0"
          { redis := (submit_job "v" "curiosity" "medium" none {}).2 }).2.redis.jobs
        "v_0" = some rec' ∧
      rec'.status = some "processing" ∧
      rec'.error = (JobHash.mk (some "v_0") (some "v") (some "curiosity") (some "medium")
        (some "idle") (some 1) none none none none none (some []) none).error ∧
      rec'.job_id = (JobHash.mk (some "v_0") (some "v") (some "curiosity") (some "medium")
        (some "idle") (some 1) none none none none none (some []) none).job_id ∧
      rec'.video_id = (JobHash.mk (some "v_0") (some "v") (some "curiosity") (some "medium")
        (some "idle") (some 1) none none none none none (some []) none).video_id ∧
      rec'.emotion = (JobHash.mk (some "v_0") (some "v") (some "curiosity") (some "medium")
        (some "idle") (some 1) none none none none none (some []) none).emotion ∧
      rec'.intensity = (JobHash.mk (some "v_0") (some "v") (some "curiosity") (some "medium")
        (some "idle") (some 1) none none none none none (some []) none).intensity ∧
      rec'.created_at = (JobHash.mk (some "v_0") (some "v") (some "curiosity") (some "medium")
        (some "idle") (some 1) none none none none none (some []) none).created_at ∧
      rec'.metadata = (JobHash.mk (some "v_0") (some "v") (some "curiosity") (some "medium")
        (some "idle") (some 1) none none none none none (some []) none).metadata ∧
      (process_job (fun k => if k = 3 then some "boom" else none) "v_0"
          { redis := (submit_job "v" "curiosity" "medium" none {}).2 }).2.redis.dlqQ
        = (submit_job "v" "curiosity" "medium" none {}).2.dlqQ
            ++ [{ rec' with error := some "boom", moved_to_dlq_at := some t }] :=
  c2_amended_dlq_entry_without_failed_status
    { redis := (submit_job "v" "curiosity" "medium" none {}).2 } "v_0"
    (JobHash.mk (some "v_0") (some "v") (some "curiosity") (some "medium")
      (some "idle") (some 1) none none none none none (some []) none)
    (fun k => if k = 3 then some "boom" else none) 3 "boom"
    rfl (by decide) (by decide) (by decide)
    (by intro j hj; interval_cases j <;> rfl) rfl

end EVP
